import Mathlib

/-!
Verification of the abbott IRC bot's admin plugin (src/abbott/plugins/admin.py).

The development shallowly embeds the two stateful components of that file:

* `IRCAdmin`'s durable scheduled-action engine (`_set_timer`, the `do_later`
  closure, `on_event_irc_on_mode_change`, `_set_all_timers`, `reload`), and
* `IRCTopic`'s topic-consensus machinery (`_get_current_topic`,
  `on_event_irc_on_topic_updated`, and the topic-edit callbacks), plus the
  hostmask helper `_nick_to_hostmask` and the `quiet`/`ban` command flows.

Python strings are modelled as Lean `String`s; the handful of string
operations the source uses (`split`, `strip`, `startswith`, `in`, slicing,
`join`) are given structurally recursive definitions over the underlying
character list so that everything evaluates inside the kernel.  Wall-clock
times and delays (`time.time()`, `delay`) are modelled as integers; the
results of external collaborators (the `parsedatetime` library, the
`irc.whois` request, the success or failure of an issued `ircop.*` request)
are passed in as explicit oracle arguments.
-/

/-! ## Python string primitives -/

/-- Python `c in s` for a single character. -/
def pyContains (s : String) (c : Char) : Bool :=
  s.data.contains c

/-- Python `s.startswith(pre)`. -/
def pyStartsWith (s pre : String) : Bool :=
  pre.data.isPrefixOf s.data

/-- Python `s[n:]`: drop the first `n` characters. -/
def pyDrop (n : Nat) (s : String) : String :=
  ⟨s.data.drop n⟩

/-- Helper for `pySplit`: split a character list on a separator character,
Python `str.split` semantics (adjacent separators yield empty pieces, the
empty string splits to `[""]`). -/
def pySplitList (c : Char) : List Char → List (List Char)
  | [] => [[]]
  | x :: xs =>
    match pySplitList c xs with
    | [] => [[]]
    | h :: t => if x == c then [] :: h :: t else (x :: h) :: t

/-- Python `s.split(c)` for a one-character separator. -/
def pySplit (c : Char) (s : String) : List String :=
  (pySplitList c s.data).map (fun l => ⟨l⟩)

/-- Python `s.strip()`. -/
def pyStrip (s : String) : String :=
  ⟨((s.data.dropWhile Char.isWhitespace).reverse.dropWhile Char.isWhitespace).reverse⟩

/-- Python `sep.join(parts)`. -/
def pyJoin (sep : String) : List String → String
  | [] => ""
  | [x] => x
  | x :: xs => x ++ sep ++ pyJoin sep xs

/-- Python `s.split(c)[0]`. -/
def pySplitHead (s : String) (c : Char) : String :=
  (pySplit c s).headD ""

/-! ## The scheduled-action engine (`IRCAdmin`)

State of the engine: the in-memory timer dictionary `later_timers`
(a map from `(param, channel, mode)` keys to live timers, modelled as an
association list from key to the relative delay handed to
`reactor.callLater`), the `config['laters']` list of
`(activatetime, param, channel, mode)` tuples, the last-saved copy of that
list (`config.save()` snapshots `laters` into `persisted`), and the
`started` flag. -/

/-- A `(param, channel, mode)` key, as used for `later_timers`. -/
abbrev SKey := String × String × String

/-- One entry of `config['laters']`: a `(activatetime, param, channel, mode)`
tuple. -/
structure Later where
  activatetime : Int
  param : String
  channel : String
  mode : String
deriving DecidableEq, Repr

/-- The key of a persisted entry (fields 1..3 of the tuple). -/
def laterKey (it : Later) : SKey := (it.param, it.channel, it.mode)

/-- The filter predicate used throughout `admin.py`:
`item[1] == param and item[2] == channel and item[3] == mode`. -/
def matchesKey (param channel mode : String) (it : Later) : Bool :=
  it.param == param && it.channel == channel && it.mode == mode

/-- State of the `IRCAdmin` scheduled-action engine. -/
structure AdminState where
  /-- `self.later_timers`: key ↦ the delay passed to `reactor.callLater`. -/
  laterTimers : List (SKey × Int)
  /-- `self.config['laters']`. -/
  laters : List Later
  /-- The on-disk copy of `laters`, updated by each `config.save()`. -/
  persisted : List Later
  /-- `self.started`. -/
  started : Bool
deriving DecidableEq, Repr

/-- The keys currently holding a timer. -/
def timerKeys (ts : List (SKey × Int)) : List SKey := ts.map Prod.fst

/-- The keys of the persisted entries. -/
def latersKeys (ls : List Later) : List SKey := ls.map laterKey

/-- `IRCAdmin._set_timer(delay, param, channel, mode)` at wall-clock time
`now`: cancel and drop any existing timer for the key, filter matching
entries out of `config['laters']`, register a fresh timer with delay
`max(1, delay)`, append `(now + delay, param, channel, mode)` and save. -/
def set_timer (now delay : Int) (param channel mode : String)
    (s : AdminState) : AdminState :=
  let k : SKey := (param, channel, mode)
  let timers := s.laterTimers.filter (fun q => !decide (q.1 = k))
  let laters := s.laters.filter (fun it => !(matchesKey param channel mode it))
  let timers := timers ++ [(k, max 1 delay)]
  let laters := laters ++ [⟨now + delay, param, channel, mode⟩]
  { s with laterTimers := timers, laters := laters, persisted := laters }

/-- The fixed translation table used by `do_later`:
`{"+b":"ban", "+q":"quiet", "+o":"op", "-o":"deop", "+v":"voice",
"-v":"devoice", "-b":"unban", "-q":"unquiet"}`. -/
def modeTable (mode : String) : Option String :=
  List.lookup mode
    [("+b", "ban"), ("+q", "quiet"), ("+o", "op"), ("-o", "deop"),
     ("+v", "voice"), ("-v", "devoice"), ("-b", "unban"), ("-q", "unquiet")]

/-- Outbound effects produced by the engine. -/
inductive AdminOut where
  /-- `transport.issue_request("ircop.<name>", channel=…, target=…)`. -/
  | request (name channel target : String)
  /-- `transport.issue_request("ircop.mode", channel=…, mode=…, param=…)`. -/
  | modeRequest (channel mode param : String)
  /-- `transport.send_event(Event("irc.do_msg", user=channel, message=…))`. -/
  | notice (channel message : String)
deriving DecidableEq, Repr

/-- Is this output an issued `ircop` request (specific or generic)? -/
def AdminOut.isReq : AdminOut → Bool
  | .request _ _ _ => true
  | .modeRequest _ _ _ => true
  | .notice _ _ => false

/-- The `do_later` closure of `_set_timer`, run when the timer for
`(param, channel, mode)` fires.  It removes its key from `later_timers` and
from `config['laters']`, saves, then issues the translated request (or the
generic `ircop.mode` fallback).  `opFail = some e` is the oracle for the
request failing with an `ircop.OpFailed`/`ValueError` whose string form is
`e`, in which case a notice is sent to the channel; `none` means the request
succeeded. -/
def do_later (param channel mode : String) (opFail : Option String)
    (s : AdminState) : AdminState × List AdminOut :=
  let k : SKey := (param, channel, mode)
  let timers := s.laterTimers.filter (fun q => !decide (q.1 = k))
  let laters := s.laters.filter (fun it => !(matchesKey param channel mode it))
  let s' : AdminState :=
    { s with laterTimers := timers, laters := laters, persisted := laters }
  let req : AdminOut :=
    match modeTable mode with
    | some name => .request ("ircop." ++ name) channel param
    | none => .modeRequest channel mode param
  match opFail with
  | none => (s', [req])
  | some e =>
      (s', [req, .notice channel
        ("I was about to do a " ++ mode ++ " " ++ param ++ ", but " ++ e)])

/-- `IRCAdmin.on_event_irc_on_mode_change(event)`: build the signed mode
string from `event.set`/`event.mode`, and if a timer is pending for
`(event.arg, event.channel, mode)`, pop and cancel it, filter the matching
entries out of `config['laters']` and save; otherwise (the `KeyError`
branch) do nothing. -/
def on_event_irc_on_mode_change (eventMode : String) (eventSet : Bool)
    (arg channel : String) (s : AdminState) : AdminState :=
  let mode := (if eventSet then "+" else "-") ++ eventMode
  let k : SKey := (arg, channel, mode)
  if k ∈ timerKeys s.laterTimers then
    let laters := s.laters.filter (fun it => !(matchesKey arg channel mode it))
    { s with
      laterTimers := s.laterTimers.filter (fun q => !decide (q.1 = k)),
      laters := laters, persisted := laters }
  else s

/-- The per-entry loop of `IRCAdmin._set_all_timers()` at time `now`,
entered after its first loop (`for timer in self.later_timers.values():
timer.cancel()`) has cancelled every live timer **without removing it from
`later_timers`**.  `entries` is the list object `self.config['laters']`
captured when the loop starts (the `for` loop keeps iterating that original
list while `_set_timer` rebinds the config entry); `stale` holds the keys
whose dictionary slot contains one of those pre-cancelled timers — such a
key stays in the dictionary until the loop aborts, and a key outside
`stale` is either absent or holds a live timer registered earlier in this
same loop, which `_set_timer` replaces without incident.  For each entry,
`_set_timer` first pops the key's timer and calls `timer.cancel()` again:
on a stale key that second `cancel()` raises twisted's `AlreadyCancelled`,
which nothing catches — the pop has already happened, the config
filter/append/save are never reached, and the loop aborts; `.error st`
carries the state left behind by the escaping exception. -/
def resync_loop (now : Int) (entries : List Later) (stale : List SKey)
    (st : AdminState) : Except AdminState AdminState :=
  match entries with
  | [] => .ok st
  | e :: rest =>
    if laterKey e ∈ stale then
      .error { st with laterTimers :=
        st.laterTimers.filter (fun q => !decide (q.1 = laterKey e)) }
    else
      resync_loop now rest stale
        (set_timer now (e.activatetime - now) e.param e.channel e.mode st)

/-- `IRCAdmin._set_all_timers()` at time `now`: the first loop cancels
every live timer but leaves it in `later_timers`, so every key present at
entry is stale for the per-entry loop that follows. -/
def set_all_timers_run (now : Int) (s : AdminState) :
    Except AdminState AdminState :=
  resync_loop now s.laters (timerKeys s.laterTimers) s

/-- `IRCAdmin.reload()` at time `now`.  (The `'laters' not in self.config`
initialisation is represented by starting states carrying `laters = []`.)
Timers are resynchronised only when `self.started` is true; a `.error`
result is the uncaught `AlreadyCancelled` escaping from
`_set_all_timers`. -/
def AdminState.reload (now : Int) (s : AdminState) :
    Except AdminState AdminState :=
  if s.started then set_all_timers_run now s else .ok s

/-- `IRCAdmin.start()` at time `now` (the timer-relevant part): set
`self.started = True` and call `_set_all_timers()`.  At real start time
`later_timers` is still empty — `__init__` created it as `{}` and the
constructor-time reload did not touch it — so no key is stale and the run
cannot abort. -/
def AdminState.start (now : Int) (s : AdminState) :
    Except AdminState AdminState :=
  set_all_timers_run now { s with started := true }

/-- One operation of the engine, for stating the consistency invariant:
a `schedule` (`_set_timer`), a timer firing (`do_later`), or an observed
external mode change (`on_event_irc_on_mode_change`). -/
inductive AdminOp where
  | schedule (now delay : Int) (param channel mode : String)
  | fire (param channel mode : String) (opFail : Option String)
  | invalidate (eventMode : String) (eventSet : Bool) (arg channel : String)
deriving DecidableEq, Repr

/-- Apply one operation.  A timer can only fire while it is still registered
in `later_timers` (every cancellation is paired with removal from the
dictionary), so `fire` is a no-op for keys with no live timer. -/
def applyOp (s : AdminState) : AdminOp → AdminState
  | .schedule now delay p c m => set_timer now delay p c m s
  | .fire p c m opFail =>
      if (p, c, m) ∈ timerKeys s.laterTimers then (do_later p c m opFail s).1
      else s
  | .invalidate em es a c => on_event_irc_on_mode_change em es a c s

/-- Run a sequence of operations. -/
def runOps (s : AdminState) (ops : List AdminOp) : AdminState :=
  ops.foldl applyOp s

/-- The §3 consistency invariant: the key set of the in-memory timer table
equals the key set of the persisted list. -/
def keysConsistent (s : AdminState) : Prop :=
  ∀ k : SKey, k ∈ timerKeys s.laterTimers ↔ k ∈ latersKeys s.laters

/-- The empty engine state (fresh plugin: `later_timers = {}`,
`config['laters'] = []`, not yet started). -/
def initialAdminState : AdminState :=
  { laterTimers := [], laters := [], persisted := [], started := false }

/-! ## The topic-consensus machinery (`IRCTopic`) -/

/-- Association-list lookup with a default, modelling reads from a
`defaultdict` (or `dict.get(k, default)`). -/
def lookupD {α : Type} : List (String × α) → String → α → α
  | [], _, d => d
  | (k', v) :: rest, k, d => if k' = k then v else lookupD rest k d

/-- Association-list update (replace the binding or append a fresh one). -/
def setA {α : Type} : List (String × α) → String → α → List (String × α)
  | [], k, v => [(k, v)]
  | (k', v') :: rest, k, v =>
      if k' = k then (k, v) :: rest else (k', v') :: setA rest k v

/-- Association-list removal: Python `dict.pop(k, default)`'s effect on the
dictionary. -/
def removeA {α : Type} (l : List (String × α)) (k : String) :
    List (String × α) :=
  l.filter (fun p => !decide (p.1 = k))

/-- State of `IRCTopic`'s topic-consensus machinery.  Waiters (the deferreds
in `self.topic_waiters[channel]`) are identified by the numbers they were
created with; `nextId` is the next fresh identity. -/
structure TopicState where
  /-- `self.topic_stack`: channel ↦ bounded topic history, most recent last
  (a `deque(maxlen=10)`). -/
  topicStack : List (String × List String)
  /-- `self.topic_waiters`: channel ↦ pending deferreds. -/
  topicWaiters : List (String × List Nat)
  /-- Fresh identity supply for newly created deferreds. -/
  nextId : Nat
  /-- Channels with a live 10-second timeout call (`reactor.callLater(10, failure)`). -/
  timeoutPending : List String
deriving DecidableEq, Repr

/-- The empty topic state. -/
def initialTopicState : TopicState :=
  { topicStack := [], topicWaiters := [], nextId := 0, timeoutPending := [] }

/-- `deque(maxlen=10).append(t)`: push on the right, evicting the leftmost
entry beyond capacity 10. -/
def pushTopic (stack : List String) (t : String) : List String :=
  let s := stack ++ [t]
  if s.length > 10 then s.drop (s.length - 10) else s

/-- `IRCTopic.on_event_irc_on_topic_updated(event)`: read the current top of
the channel's history (`None` when empty), push `newtopic` when it differs,
then pop the channel's waiter set and fire every waiter with `newtopic`.
Returns the new state and the list of `(waiter, value)` resolutions.  The
timeout handle is cancelled by the success callback installed on the waiter
that was created when the set was empty; that waiter is fired here exactly
when the popped set is non-empty. -/
def on_event_irc_on_topic_updated (channel newtopic : String)
    (ts : TopicState) : TopicState × List (Nat × String) :=
  let stack := lookupD ts.topicStack channel []
  let oldtopic : Option String := stack.getLast?
  let newStacks :=
    if some newtopic ≠ oldtopic then
      setA ts.topicStack channel (pushTopic stack newtopic)
    else ts.topicStack
  let ws := lookupD ts.topicWaiters channel []
  { topicStack := newStacks,
    topicWaiters := removeA ts.topicWaiters channel,
    nextId := ts.nextId,
    timeoutPending :=
      if ws.isEmpty then ts.timeoutPending
      else ts.timeoutPending.filter (fun c => !decide (c = channel)) }
  |> fun st => (st, ws.map (fun i => (i, newtopic)))

/-- What `_get_current_topic` hands back to its caller. -/
inductive GetTopicRes where
  /-- `defer.succeed(topic_stack[-1])`: the topic was already known. -/
  | immediate (topic : String)
  /-- A fresh deferred, registered in the channel's waiter set. -/
  | waiter (id : Nat)
deriving DecidableEq, Repr

/-- Events sent out by `_get_current_topic`. -/
inductive TopicReq where
  /-- `transport.send_event(Event("irc.do_topic", channel=…))`. -/
  | fetchTopic (channel : String)
deriving DecidableEq, Repr

/-- `IRCTopic._get_current_topic(channel)`: answer immediately from the top
of the history when it is non-empty; otherwise send an `irc.do_topic` event,
create a fresh deferred, arm the 10-second timeout when the waiter set was
empty, and register the deferred as a waiter. -/
def get_current_topic (channel : String) (ts : TopicState) :
    TopicState × GetTopicRes × List TopicReq :=
  let stack := lookupD ts.topicStack channel []
  match stack.getLast? with
  | some t => (ts, .immediate t, [])
  | none =>
    let ws := lookupD ts.topicWaiters channel []
    let newId := ts.nextId
    ( { topicStack := ts.topicStack,
        topicWaiters := setA ts.topicWaiters channel (ws ++ [newId]),
        nextId := newId + 1,
        timeoutPending :=
          if ws.isEmpty then ts.timeoutPending ++ [channel]
          else ts.timeoutPending },
      .waiter newId, [.fetchTopic channel] )

/-! ## Topic-edit callbacks

`topicinsert`/`topicreplace`/`topicremove` all fetch the current topic, split
it on `"|"`, strip each part, apply the edit, and either issue one
`ircop.topic` (set-topic) request with the rejoined string or reply with an
error message.  The pure part of each callback is modelled as a function
from the fetched current topic and the command arguments to the outcome. -/

/-- Outcome of a topic-edit callback. -/
inductive TopicEditResult where
  /-- `self._set_topic(channel, newtopic, …)`: one set-topic request issued. -/
  | setTopic (newtopic : String)
  /-- `event.reply(message)`, and no set-topic request. -/
  | reply (message : String)
deriving DecidableEq, Repr

/-- `[x.strip() for x in currenttopic.split("|")]`. -/
def topicParts (currenttopic : String) : List String :=
  (pySplit '|' currenttopic).map pyStrip

/-- Python `list.insert(pos, x)`: a negative index is shifted by the length
and then clamped to 0; an index beyond the end is clamped to the end.  It
never raises `IndexError`. -/
def pyInsert {α : Type} (l : List α) (pos : Int) (x : α) : List α :=
  let n : Int := l.length
  let i := if pos < 0 then pos + n else pos
  let i := if i < 0 then 0 else if i > n then n else i
  l.take i.toNat ++ [x] ++ l.drop i.toNat

/-- Is `pos` a valid Python index into a list of length `n`
(`-n <= pos < n`)?  Indexed assignment and `del` raise `IndexError`
otherwise. -/
def pyValidIndex (n : Nat) (pos : Int) : Bool :=
  decide (-(n : Int) ≤ pos) && decide (pos < (n : Int))

/-- The normalised non-negative form of a valid Python index. -/
def pyNormIndex (n : Nat) (pos : Int) : Nat :=
  (if pos < 0 then pos + (n : Int) else pos).toNat

/-- The out-of-range reply both `topicreplace` and `topicremove` send:
`"There are only %s topic parts. Remember indexes start at 0" % len(...)`. -/
def outOfRangeReply (n : Nat) : String :=
  "There are only " ++ toString n ++ " topic parts. Remember indexes start at 0"

/-- The callback of `IRCTopic.topicinsert` applied to the fetched current
topic: split, `topic_parts.insert(pos, text)`, rejoin, set. -/
def topicinsert (currenttopic : String) (pos : Int) (text : String) :
    TopicEditResult :=
  let parts := topicParts currenttopic
  .setTopic (pyJoin " | " (pyInsert parts pos text))

/-- The callback of `IRCTopic.topicreplace`: split, `topic_parts[pos] = text`
guarded by `try/except IndexError`, rejoin, set. -/
def topicreplace (currenttopic : String) (pos : Int) (text : String) :
    TopicEditResult :=
  let parts := topicParts currenttopic
  if pyValidIndex parts.length pos then
    .setTopic (pyJoin " | " (parts.set (pyNormIndex parts.length pos) text))
  else .reply (outOfRangeReply parts.length)

/-- The callback of `IRCTopic.topicremove`: split, `del topic_parts[pos]`
guarded by `try/except IndexError`, rejoin, set. -/
def topicremove (currenttopic : String) (pos : Int) : TopicEditResult :=
  let parts := topicParts currenttopic
  if pyValidIndex parts.length pos then
    .setTopic (pyJoin " | " (parts.eraseIdx (pyNormIndex parts.length pos)))
  else .reply (outOfRangeReply parts.length)

/-! ## Hostmask resolution (`IRCAdmin._nick_to_hostmask`) and the
`quiet`/`ban` command flows -/

/-- The `RPL_WHOISUSER` triple returned by a successful `irc.whois`. -/
structure WhoisUser where
  nick : String
  username : String
  host : String
deriving DecidableEq, Repr

/-- Outcome of the `irc.whois` directory lookup, supplied as an oracle. -/
inductive WhoisResult where
  | found (w : WhoisUser)
  /-- The lookup raised `ircutil.NoSuchNick`. -/
  | noSuchNick
  /-- The lookup raised `ircutil.WhoisTimedout`. -/
  | timedOut
deriving DecidableEq, Repr

/-- Does the argument already look like a mask: `("!" in nick and "@" in
nick) or nick.startswith("$")`? -/
def looksLikeMask (nick : String) : Bool :=
  (pyContains nick '!' && pyContains nick '@') || pyStartsWith nick "$"

/-- `IRCAdmin._nick_to_hostmask(nick)`: return masks and extbans unchanged;
otherwise resolve via whois (`whois` is the lookup's outcome) and build the
wildcard mask, special-casing freenode web-gateway hosts (keep only the
embedded IP: `host.split("/")[-1][3:]`) and other `gateway/` hosts (keep the
username, host becomes `gateway/*`); in the general case wildcard both the
nick and username fields.  Errors carry the raised exception's name. -/
def nick_to_hostmask (nick : String) (whois : WhoisResult) :
    Except String String :=
  if looksLikeMask nick then .ok nick
  else
    match whois with
    | .noSuchNick => .error "NoSuchNick"
    | .timedOut => .error "WhoisTimedout"
    | .found w =>
      let rest :=
        if pyStartsWith w.host "gateway/web/freenode/ip." then
          ("*", "*", pyDrop 3 ((pySplit '/' w.host).getLastD ""))
        else if pyStartsWith w.host "gateway/" then
          ("*", w.username, "gateway/*")
        else ("*", "*", w.host)
      .ok (rest.1 ++ "!" ++ rest.2.1 ++ "@" ++ rest.2.2)

/-- The outcome of `parse_time(timestr)` (admin.py lines 20-32): the
`parsedatetime` library either fails to parse (`status == 0`, raising
`ValueError`) or yields an absolute timestamp, from which the function
returns `max(1, timestamp - now)`. -/
inductive ParseOutcome where
  | noParse
  | parsed (timestamp : Int)
deriving DecidableEq, Repr

/-- `parse_time` at wall-clock time `now`: `none` models the raised
`ValueError("I don't understand when you want me to do that")`. -/
def parse_time (now : Int) (o : ParseOutcome) : Option Int :=
  match o with
  | .noParse => none
  | .parsed ts => some (max 1 (ts - now))

/-- The `ValueError` message `parse_time` raises. -/
def parseErrorMsg : String := "I don't understand when you want me to do that"

/-- Observable outputs of the `quiet` and `ban` command handlers. -/
inductive CmdOut where
  /-- `event.reply(message)`. -/
  | reply (message : String)
  /-- `transport.issue_request(name, channel=…, target=…)`. -/
  | request (name channel target : String)
  /-- `transport.issue_request("ircop.kick", channel=…, target=…, reason=…)`. -/
  | kick (channel target reason : String)
  /-- A `self._set_timer(delay, param, channel, mode)` call made by the
  success callback of `_do_moderequest`. -/
  | modeTimer (delay : Int) (param channel mode : String)
  /-- An uncaught Python exception aborted the handler. -/
  | pythonError (name : String)
deriving DecidableEq, Repr

/-- Python truthiness step `if not duration and self.config['defaulttime']:
duration = self.config['defaulttime']` shared by `quiet` and `ban`
(`defaulttime = some 0` is falsy and does not apply). -/
def applyDefaulttime (duration : Option Int) (defaulttime : Option Int) :
    Option Int :=
  match duration with
  | some d => some d
  | none =>
      match defaulttime with
      | some t => if t == 0 then none else some t
      | none => none

/-- `IRCAdmin._do_moderequest(channel, mode, hostmask, duration)` with
`mode ∈ {"b","q"}`: issue `ircop.ban`/`ircop.quiet`; when the request
succeeds (`opFail = none`) and a duration was given, the success callback
books `_set_timer(duration, hostmask, channel, "-"+mode)`. -/
def do_moderequest (channel mode hostmask : String) (duration : Option Int)
    (opFail : Option String) : List CmdOut :=
  let name := if mode == "b" then "ban" else "quiet"
  let req : CmdOut := .request ("ircop." ++ name) channel hostmask
  match opFail, duration with
  | none, some d => [req, .modeTimer d hostmask channel ("-" ++ mode)]
  | _, _ => [req]

/-- `IRCAdmin.quiet(event, match)`: parse the optional duration — a
`ValueError` is replied verbatim and **aborts** the handler — fall back to
`defaulttime`, resolve the target to a hostmask (replying on `NoSuchNick`),
then `_do_moderequest(channel, 'q', …)`, replying with the message of an
`ircop.OpFailed`. -/
def quietCmd (now : Int) (channel target : String) (timestr : Option String)
    (parse : ParseOutcome) (defaulttime : Option Int) (whois : WhoisResult)
    (opFail : Option String) : List CmdOut :=
  let duration? : Except String (Option Int) :=
    match timestr with
    | some _ =>
        match parse_time now parse with
        | none => .error parseErrorMsg
        | some d => .ok (some d)
    | none => .ok none
  match duration? with
  | .error e => [.reply e]
  | .ok d0 =>
    let duration := applyDefaulttime d0 defaulttime
    match nick_to_hostmask target whois with
    | .error "NoSuchNick" =>
        [.reply ("There is no user by that nick on the network. Try "
          ++ target
          ++ "!*@* to quiet anyone with that nick, or specify a full hostmask.")]
    | .error e => [.pythonError e]
    | .ok hostmask =>
        do_moderequest channel "q" hostmask duration opFail
          ++ (match opFail with
              | some e => [.reply e]
              | none => [])

/-- The tail of `IRCAdmin.ban` once `nick`, `hostmask`, `reason`, `duration`
and `do_kick` are fixed: issue the ban via `_do_moderequest(channel, 'b',
…)`, issue the kick when `do_kick`, then `yield ban_d; yield kick_d` —
an `OpFailed` from either is replied; when `do_kick` is false the name
`kick_d` was never bound and `yield kick_d` raises an uncaught
`UnboundLocalError` (after the ban request was already issued). -/
def banIssue (channel nick hostmask reason : String) (duration : Option Int)
    (doKick : Bool) (banFail kickFail : Option String) : List CmdOut :=
  do_moderequest channel "b" hostmask duration banFail
    ++ (if doKick then [.kick channel nick reason] else [])
    ++ (match banFail with
        | some e => [.reply e]
        | none =>
          if doKick then
            (match kickFail with
             | some e => [.reply e]
             | none => [])
          else [.pythonError "UnboundLocalError"])

/-- `IRCAdmin.ban(event, match)`: the reason starts as
`"Banned by " + event.user.split("!")[0]`; a duration that fails to parse
becomes the reason, with the duration falling back to `defaulttime`.  Then:
a full mask target is banned as given and kicked when its nick part has no
wildcard; a bare nick is resolved via whois (replying on
`NoSuchNick`/`WhoisTimedout`) and always kicked; anything else falls into a
branch that never assigned `hostmask`, so the handler dies with an uncaught
`UnboundLocalError` before issuing anything. -/
def banCmd (now : Int) (channel target user : String)
    (timestr : Option String) (parse : ParseOutcome)
    (defaulttime : Option Int) (whois : WhoisResult)
    (banFail kickFail : Option String) : List CmdOut :=
  let reason0 := "Banned by " ++ pySplitHead user '!'
  let rd : String × Option Int :=
    match timestr with
    | some ts =>
        match parse_time now parse with
        | none => (ts, none)
        | some d => (reason0, some d)
    | none => (reason0, none)
  let duration := applyDefaulttime rd.2 defaulttime
  if pyContains target '@' && pyContains target '!'
      && !(pyContains target '$') then
    let nick := pySplitHead target '!'
    banIssue channel nick target rd.1 duration (!(pyContains nick '*'))
      banFail kickFail
  else if !(pyContains target '@') && !(pyContains target '!')
      && !(pyContains target '$') then
    match nick_to_hostmask target whois with
    | .error "NoSuchNick" =>
        [.reply ("There is no user by that nick on the network. Try "
          ++ target
          ++ "!*@* to ban anyone with that nick, or specify a full hostmask.")]
    | .error _ =>
        [.reply ("That's odd, the whois I did on " ++ target
          ++ " didn't work. Sorry.")]
    | .ok hostmask =>
        banIssue channel target hostmask rd.1 duration true banFail kickFail
  else
    [.pythonError "UnboundLocalError"]

/-! ## Helper lemmas on key membership -/

theorem matchesKey_eq_true {p c m : String} {it : Later} :
    matchesKey p c m it = true ↔ laterKey it = (p, c, m) := by
  simp [matchesKey, laterKey, Prod.ext_iff, and_assoc]

theorem mem_timerKeys_filterKey {ts : List (SKey × Int)} {k k' : SKey} :
    k' ∈ timerKeys (ts.filter (fun q => !decide (q.1 = k))) ↔
      k' ∈ timerKeys ts ∧ k' ≠ k := by
  simp only [timerKeys, List.mem_map, List.mem_filter, Bool.not_eq_true',
    decide_eq_false_iff_not]
  constructor
  · rintro ⟨q, ⟨hq, hne⟩, rfl⟩
    exact ⟨⟨q, hq, rfl⟩, hne⟩
  · rintro ⟨⟨q, hq, rfl⟩, hne⟩
    exact ⟨q, ⟨hq, hne⟩, rfl⟩

theorem mem_latersKeys_filterKey {ls : List Later} {p c m : String}
    {k' : SKey} :
    k' ∈ latersKeys (ls.filter (fun it => !(matchesKey p c m it))) ↔
      k' ∈ latersKeys ls ∧ k' ≠ (p, c, m) := by
  simp only [latersKeys, List.mem_map, List.mem_filter, Bool.not_eq_true']
  constructor
  · rintro ⟨it, ⟨hit, hne⟩, rfl⟩
    refine ⟨⟨it, hit, rfl⟩, ?_⟩
    intro hk
    rw [← matchesKey_eq_true] at hk
    simp [hk] at hne
  · rintro ⟨⟨it, hit, rfl⟩, hne⟩
    refine ⟨it, ⟨hit, ?_⟩, rfl⟩
    rw [Bool.eq_false_iff]
    intro hk
    exact hne (matchesKey_eq_true.mp hk)

theorem mem_timerKeys_append {a b : List (SKey × Int)} {k' : SKey} :
    k' ∈ timerKeys (a ++ b) ↔ k' ∈ timerKeys a ∨ k' ∈ timerKeys b := by
  simp [timerKeys]

theorem mem_timerKeys_singleton {k k' : SKey} {d : Int} :
    k' ∈ timerKeys [(k, d)] ↔ k' = k := by
  simp [timerKeys]

theorem mem_latersKeys_singleton {t : Int} {p c m : String} {k' : SKey} :
    k' ∈ latersKeys [⟨t, p, c, m⟩] ↔ k' = (p, c, m) := by
  simp [latersKeys, laterKey]

theorem mem_latersKeys_append {a b : List Later} {k' : SKey} :
    k' ∈ latersKeys (a ++ b) ↔ k' ∈ latersKeys a ∨ k' ∈ latersKeys b := by
  simp [latersKeys]

theorem keysConsistent_set_timer {now delay : Int} {p c m : String}
    {s : AdminState} (h : keysConsistent s) :
    keysConsistent (set_timer now delay p c m s) := by
  intro k
  have hk := h k
  simp only [set_timer, mem_timerKeys_append, mem_latersKeys_append,
    mem_timerKeys_filterKey, mem_latersKeys_filterKey,
    mem_timerKeys_singleton, mem_latersKeys_singleton]
  by_cases hkk : k = (p, c, m) <;> simp [hkk, hk]

theorem keysConsistent_do_later {p c m : String} {opFail : Option String}
    {s : AdminState} (h : keysConsistent s) :
    keysConsistent (do_later p c m opFail s).1 := by
  intro k
  have hk := h k
  cases opFail <;>
    simp [do_later, mem_timerKeys_filterKey, mem_latersKeys_filterKey, hk]

theorem keysConsistent_mode_change {em : String} {es : Bool}
    {a c : String} {s : AdminState} (h : keysConsistent s) :
    keysConsistent (on_event_irc_on_mode_change em es a c s) := by
  intro k
  have hk := h k
  unfold on_event_irc_on_mode_change
  by_cases hmem : ((a, c, (if es then "+" else "-") ++ em) : SKey)
      ∈ timerKeys s.laterTimers
  · simp only [hmem, if_true]
    simp [mem_timerKeys_filterKey, mem_latersKeys_filterKey, hk]
  · simp only [hmem, if_false]
    exact hk

/-- C1: for every key, after any sequence of `schedule` (`_set_timer`),
`invalidate` (`on_event_irc_on_mode_change`) and timer-fire (`do_later`)
operations of the scheduled-action engine completes, the set of keys present
in the in-memory timer table `later_timers` equals the set of keys of
entries in the persisted `laters` list. -/
theorem scheduled_engine_consistency (s : AdminState) (ops : List AdminOp)
    (h : keysConsistent s) : keysConsistent (runOps s ops) := by
  induction ops generalizing s with
  | nil => exact h
  | cons op rest ih =>
    refine ih _ ?_
    cases op with
    | schedule now delay p c m => exact keysConsistent_set_timer h
    | fire p c m opFail =>
        by_cases hmem : ((p, c, m) : SKey) ∈ timerKeys s.laterTimers
        · simpa [applyOp, hmem] using keysConsistent_do_later h
        · simpa [applyOp, hmem] using h
    | invalidate em es a c => exact keysConsistent_mode_change h

/-- Witness for C1 at a concrete run: schedule a `-q` reversal, invalidate
it by an observed `-q` mode change, schedule a `-b` reversal and let it
fire. -/
theorem scheduled_engine_consistency_witness :
    keysConsistent initialAdminState ∧
      keysConsistent (runOps initialAdminState
        [.schedule 0 30 "x!*@*" "#a" "-q",
         .invalidate "q" false "x!*@*" "#a",
         .schedule 5 60 "y!*@*" "#b" "-b",
         .fire "y!*@*" "#b" "-b" none]) :=
  ⟨fun k => by simp [initialAdminState, timerKeys, latersKeys],
   scheduled_engine_consistency _ _
     (fun k => by simp [initialAdminState, timerKeys, latersKeys])⟩

/-! ## C2: replace semantics of `schedule` -/

theorem filter_key_after_filter_ne {ts : List (SKey × Int)} {k : SKey} :
    (ts.filter (fun q => !decide (q.1 = k))).filter
        (fun q => decide (q.1 = k)) = [] := by
  induction ts with
  | nil => rfl
  | cons q rest ih =>
    by_cases hq : q.1 = k <;> simp [hq, ih]

theorem filter_matches_after_filter_not {ls : List Later} {p c m : String} :
    (ls.filter (fun it => !(matchesKey p c m it))).filter
        (matchesKey p c m) = [] := by
  induction ls with
  | nil => rfl
  | cons it rest ih =>
    by_cases hit : matchesKey p c m it <;> simp [hit, ih]

/-- C2: calling `_set_timer` twice with the same `(param, channel, mode)`
key replaces rather than duplicates the pending action: after the second
call exactly one timer and exactly one persisted entry exist for the key,
both carrying the second call's delay (the later delay wins: the timer's
delay is `max 1 delay₂`, the persisted fire time is `now₂ + delay₂`), the
new `laters` list is saved, and the effective delay of the registered timer
is clamped to a minimum of 1 second. -/
theorem schedule_twice_replaces (s : AdminState)
    (now1 delay1 now2 delay2 : Int) (p c m : String) :
    (set_timer now2 delay2 p c m
        (set_timer now1 delay1 p c m s)).laterTimers.filter
          (fun q => decide (q.1 = ((p, c, m) : SKey)))
        = [((p, c, m), max 1 delay2)]
    ∧ (set_timer now2 delay2 p c m
        (set_timer now1 delay1 p c m s)).laters.filter (matchesKey p c m)
        = [⟨now2 + delay2, p, c, m⟩]
    ∧ (set_timer now2 delay2 p c m
        (set_timer now1 delay1 p c m s)).persisted
        = (set_timer now2 delay2 p c m
            (set_timer now1 delay1 p c m s)).laters
    ∧ 1 ≤ max 1 delay2 := by
  refine ⟨?_, ?_, rfl, le_max_left 1 delay2⟩
  · simp [set_timer, List.filter_append, filter_key_after_filter_ne]
  · simp [set_timer, List.filter_append, filter_matches_after_filter_not,
      matchesKey]

/-! ## C3: behaviour of a firing scheduled action -/

/-- C3: when a scheduled action fires (`do_later`), it first removes its own
key from both the in-memory timer table and the persisted list and persists
that removal (keys other than its own are untouched); it then translates the
two-character `modeSpec` through the fixed table `+b`→ban, `-b`→unban,
`+q`→quiet, `-q`→unquiet, `+o`→op, `-o`→deop, `+v`→voice, `-v`→devoice and
issues the corresponding `ircop.*` request with the channel and parameter,
falling back to the generic `ircop.mode` request carrying the raw mode
string when the mode is not in the table; on failure of that request it
sends a user-visible notice to the channel naming the mode, parameter and
failure reason; and it issues exactly one request (no retry). -/
theorem fired_action_behaviour (p c m : String) (opFail : Option String)
    (s : AdminState) :
    (((p, c, m) : SKey) ∉ timerKeys (do_later p c m opFail s).1.laterTimers
    ∧ ((p, c, m) : SKey) ∉ latersKeys (do_later p c m opFail s).1.laters
    ∧ (do_later p c m opFail s).1.persisted
        = (do_later p c m opFail s).1.laters
    ∧ (∀ k' : SKey, k' ≠ (p, c, m) →
        ((k' ∈ timerKeys (do_later p c m opFail s).1.laterTimers
            ↔ k' ∈ timerKeys s.laterTimers)
         ∧ (k' ∈ latersKeys (do_later p c m opFail s).1.laters
            ↔ k' ∈ latersKeys s.laters))))
    ∧ ((do_later p c m opFail s).2.filter AdminOut.isReq).length = 1
    ∧ (∀ name, modeTable m = some name →
        (do_later p c m opFail s).2.head?
          = some (.request ("ircop." ++ name) c p))
    ∧ (modeTable m = none →
        (do_later p c m opFail s).2.head? = some (.modeRequest c m p))
    ∧ (modeTable "+b" = some "ban" ∧ modeTable "-b" = some "unban"
       ∧ modeTable "+q" = some "quiet" ∧ modeTable "-q" = some "unquiet"
       ∧ modeTable "+o" = some "op" ∧ modeTable "-o" = some "deop"
       ∧ modeTable "+v" = some "voice" ∧ modeTable "-v" = some "devoice")
    ∧ (opFail = none → (do_later p c m opFail s).2.length = 1)
    ∧ (∀ e, opFail = some e →
        (do_later p c m opFail s).2.length = 2
        ∧ (do_later p c m opFail s).2.getLast?
            = some (.notice c
                ("I was about to do a " ++ m ++ " " ++ p ++ ", but " ++ e))) := by
  refine ⟨⟨?_, ?_, ?_, ?_⟩, ?_, ?_, ?_, ?_, ?_, ?_⟩
  · cases opFail <;>
      simp [do_later, mem_timerKeys_filterKey]
  · cases opFail <;>
      simp [do_later, mem_latersKeys_filterKey]
  · cases opFail <;> rfl
  · intro k' hk'
    cases opFail <;>
      simp [do_later, mem_timerKeys_filterKey, mem_latersKeys_filterKey, hk']
  · cases opFail <;> cases hm : modeTable m <;>
      simp [do_later, hm, AdminOut.isReq]
  · intro name hname
    cases opFail <;> simp [do_later, hname]
  · intro hnone
    cases opFail <;> simp [do_later, hnone]
  · exact ⟨rfl, rfl, rfl, rfl, rfl, rfl, rfl, rfl⟩
  · intro h
    subst h
    cases hm : modeTable m <;> simp [do_later, hm]
  · intro e he
    subst he
    cases hm : modeTable m <;> simp [do_later, hm]

/-- Witness for C3 at concrete inputs: a `-q` action whose request fails
with a reason, and (inside the theorem's conditional conjuncts) the table
lookups discharged at the relevant modes. -/
theorem fired_action_behaviour_witness :
    (do_later "x!*@*" "#a" "-q" (some "I could not get op") 
        { laterTimers := [(("x!*@*", "#a", "-q"), 30)],
          laters := [⟨30, "x!*@*", "#a", "-q"⟩],
          persisted := [⟨30, "x!*@*", "#a", "-q"⟩], started := true }).2
      = [.request "ircop.unquiet" "#a" "x!*@*",
         .notice "#a"
           "I was about to do a -q x!*@*, but I could not get op"] ∧
    (("x!*@*", "#a", "-q") : SKey)
      ∉ timerKeys (do_later "x!*@*" "#a" "-q" (some "I could not get op")
        { laterTimers := [(("x!*@*", "#a", "-q"), 30)],
          laters := [⟨30, "x!*@*", "#a", "-q"⟩],
          persisted := [⟨30, "x!*@*", "#a", "-q"⟩],
          started := true }).1.laterTimers := by
  constructor
  · decide
  · exact (fired_action_behaviour "x!*@*" "#a" "-q"
      (some "I could not get op") _).1.1

/-! ## C6: external invalidation of a pending action -/

/-- C6: when an observed external mode-change event matches the exact
`(arg, channel, signed-mode)` key of a pending scheduled action,
`on_event_irc_on_mode_change` cancels that action's timer (the key leaves
the in-memory table), removes its entry from the persisted list, leaves
every other key untouched, and persists the removal; when no pending action
exists for the key, the handler leaves the state entirely unchanged (a
no-op, not an error). -/
theorem invalidation_cancels_or_noop (em : String) (es : Bool)
    (arg channel : String) (s : AdminState) :
    ((((arg, channel, (if es then "+" else "-") ++ em) : SKey)
        ∈ timerKeys s.laterTimers →
      (((arg, channel, (if es then "+" else "-") ++ em) : SKey)
          ∉ timerKeys
            (on_event_irc_on_mode_change em es arg channel s).laterTimers
      ∧ (((arg, channel, (if es then "+" else "-") ++ em) : SKey)
          ∉ latersKeys
            (on_event_irc_on_mode_change em es arg channel s).laters)
      ∧ (∀ k' : SKey,
          k' ≠ ((arg, channel, (if es then "+" else "-") ++ em) : SKey) →
          ((k' ∈ timerKeys
              (on_event_irc_on_mode_change em es arg channel s).laterTimers
            ↔ k' ∈ timerKeys s.laterTimers)
          ∧ (k' ∈ latersKeys
              (on_event_irc_on_mode_change em es arg channel s).laters
            ↔ k' ∈ latersKeys s.laters)))
      ∧ (on_event_irc_on_mode_change em es arg channel s).persisted
          = (on_event_irc_on_mode_change em es arg channel s).laters))
    ∧ (((arg, channel, (if es then "+" else "-") ++ em) : SKey)
        ∉ timerKeys s.laterTimers →
        on_event_irc_on_mode_change em es arg channel s = s)) := by
  by_cases hmem : (((arg, channel, (if es then "+" else "-") ++ em) : SKey)
      ∈ timerKeys s.laterTimers)
  · refine ⟨fun _ => ⟨?_, ?_, ?_, ?_⟩, fun hn => absurd hmem hn⟩
    · simp [on_event_irc_on_mode_change, hmem, mem_timerKeys_filterKey]
    · simp [on_event_irc_on_mode_change, hmem, mem_latersKeys_filterKey]
    · intro k' hk'
      simp [on_event_irc_on_mode_change, hmem, mem_timerKeys_filterKey,
        mem_latersKeys_filterKey, hk']
    · simp [on_event_irc_on_mode_change, hmem]
  · exact ⟨fun hmem' => absurd hmem' hmem,
      fun _ => by simp [on_event_irc_on_mode_change, hmem]⟩

/-- Witness for C6: an observed `-q` for a key with a pending timer removes
it from both tables, and the same event on the emptied state is a no-op. -/
theorem invalidation_cancels_or_noop_witness :
    (on_event_irc_on_mode_change "q" false "x!*@*" "#a"
        { laterTimers := [(("x!*@*", "#a", "-q"), 30)],
          laters := [⟨30, "x!*@*", "#a", "-q"⟩],
          persisted := [⟨30, "x!*@*", "#a", "-q"⟩], started := true })
      = { laterTimers := [], laters := [], persisted := [], started := true }
    ∧ on_event_irc_on_mode_change "q" false "x!*@*" "#a"
        { laterTimers := [], laters := [], persisted := [], started := true }
      = { laterTimers := [], laters := [], persisted := [], started := true }
    ∧ (("x!*@*", "#a", "-q") : SKey) ∉ timerKeys
        (on_event_irc_on_mode_change "q" false "x!*@*" "#a"
          { laterTimers := [(("x!*@*", "#a", "-q"), 30)],
            laters := [⟨30, "x!*@*", "#a", "-q"⟩],
            persisted := [⟨30, "x!*@*", "#a", "-q"⟩],
            started := true }).laterTimers := by
  refine ⟨by decide, ?_, ?_⟩
  · exact (invalidation_cancels_or_noop "q" false "x!*@*" "#a"
      { laterTimers := [], laters := [], persisted := [],
        started := true }).2 (by decide)
  · exact ((invalidation_cancels_or_noop "q" false "x!*@*" "#a"
      { laterTimers := [(("x!*@*", "#a", "-q"), 30)],
        laters := [⟨30, "x!*@*", "#a", "-q"⟩],
        persisted := [⟨30, "x!*@*", "#a", "-q"⟩],
        started := true }).1 (by decide)).1

/-! ## C5: resynchronisation of timers from the persisted list -/

/-- Drop every timer whose key occurs in `ks`. -/
def removeKeysT (ks : List SKey) (ts : List (SKey × Int)) :
    List (SKey × Int) :=
  ts.filter (fun q => !decide (q.1 ∈ ks))

/-- Drop every persisted entry whose key occurs in `ks`. -/
def removeKeysL (ks : List SKey) (ls : List Later) : List Later :=
  ls.filter (fun it => !decide (laterKey it ∈ ks))

theorem removeKeysT_nil {ts : List (SKey × Int)} : removeKeysT [] ts = ts := by
  simp [removeKeysT]

theorem removeKeysL_nil {ls : List Later} : removeKeysL [] ls = ls := by
  simp [removeKeysL]

theorem removeKeysT_cons {k : SKey} {ks : List SKey}
    {ts : List (SKey × Int)} :
    removeKeysT (k :: ks) ts
      = removeKeysT ks (ts.filter (fun q => !decide (q.1 = k))) := by
  induction ts with
  | nil => rfl
  | cons q rest ih =>
    by_cases h1 : q.1 = k <;> by_cases h2 : q.1 ∈ ks <;>
      simp [removeKeysT, List.filter_cons, h1, h2] at ih ⊢ <;> exact ih

theorem removeKeysL_cons {p c m : String} {ks : List SKey}
    {ls : List Later} :
    removeKeysL ((p, c, m) :: ks) ls
      = removeKeysL ks (ls.filter (fun it => !(matchesKey p c m it))) := by
  induction ls with
  | nil => rfl
  | cons it rest ih =>
    by_cases h1 : matchesKey p c m it
    · have hk : laterKey it = (p, c, m) := matchesKey_eq_true.mp h1
      simp [removeKeysL, List.filter_cons, h1, hk] at ih ⊢
      exact ih
    · have hk : ¬laterKey it = (p, c, m) := fun hkk => by
        simp [matchesKey_eq_true.mpr hkk] at h1
      by_cases h2 : laterKey it ∈ ks <;>
        simp [removeKeysL, List.filter_cons, h1, h2, hk] at ih ⊢ <;> exact ih

theorem removeKeysT_append {ks : List SKey} {a b : List (SKey × Int)} :
    removeKeysT ks (a ++ b) = removeKeysT ks a ++ removeKeysT ks b :=
  List.filter_append _ _

theorem removeKeysL_append {ks : List SKey} {a b : List Later} :
    removeKeysL ks (a ++ b) = removeKeysL ks a ++ removeKeysL ks b :=
  List.filter_append _ _

theorem latersKeys_cons {e : Later} {L : List Later} :
    latersKeys (e :: L) = laterKey e :: latersKeys L := rfl

/-- Effect of the `_set_all_timers` loop over an arbitrary entry list `L`
with pairwise-distinct keys: afterwards the timer table is the old table
minus every key of `L` plus exactly one timer per entry of `L` (with delay
`max 1 (activatetime - now)`), and the `laters` list is the old list minus
every key of `L` plus the entries of `L` themselves (each re-appended with
its fire time intact, since `now + (activatetime - now) = activatetime`). -/
theorem set_timer_fold_spec (now : Int) (L : List Later) (s : AdminState)
    (hnodup : (latersKeys L).Nodup) :
    (L.foldl (fun st it =>
        set_timer now (it.activatetime - now) it.param it.channel it.mode st)
        s).laterTimers
      = removeKeysT (latersKeys L) s.laterTimers
          ++ L.map (fun it => (laterKey it, max 1 (it.activatetime - now)))
    ∧ (L.foldl (fun st it =>
        set_timer now (it.activatetime - now) it.param it.channel it.mode st)
        s).laters
      = removeKeysL (latersKeys L) s.laters ++ L := by
  induction L generalizing s with
  | nil => simp [latersKeys, removeKeysT_nil, removeKeysL_nil]
  | cons e L ih =>
    rw [latersKeys_cons, List.nodup_cons] at hnodup
    obtain ⟨hke, hnd⟩ := hnodup
    obtain ⟨h1, h2⟩ := ih
      (set_timer now (e.activatetime - now) e.param e.channel e.mode s) hnd
    have hkey : ((e.param, e.channel, e.mode) : SKey) = laterKey e := rfl
    have htime : now + (e.activatetime - now) = e.activatetime := by omega
    have hself : (⟨e.activatetime, e.param, e.channel, e.mode⟩ : Later) = e := rfl
    constructor
    · rw [List.foldl_cons, h1]
      rw [show (set_timer now (e.activatetime - now) e.param e.channel e.mode
            s).laterTimers
          = s.laterTimers.filter
              (fun q => !decide (q.1 = ((e.param, e.channel, e.mode) : SKey)))
            ++ [(laterKey e, max 1 (e.activatetime - now))] from rfl]
      rw [removeKeysT_append]
      rw [show removeKeysT (latersKeys L)
            [(laterKey e, max 1 (e.activatetime - now))]
          = [(laterKey e, max 1 (e.activatetime - now))] by
        simp [removeKeysT, hke]]
      rw [latersKeys_cons, ← hkey, removeKeysT_cons]
      simp [laterKey]
    · rw [List.foldl_cons, h2]
      rw [show (set_timer now (e.activatetime - now) e.param e.channel e.mode
            s).laters
          = s.laters.filter
              (fun it => !(matchesKey e.param e.channel e.mode it))
            ++ [e] by
        simp [set_timer, htime, hself]]
      rw [removeKeysL_append]
      rw [show removeKeysL (latersKeys L) [e] = [e] by
        simp [removeKeysL, hke]]
      rw [latersKeys_cons]
      rw [show laterKey e = ((e.param, e.channel, e.mode) : SKey) from rfl,
        removeKeysL_cons]
      simp

theorem resync_loop_no_stale (now : Int) (L : List Later) (st : AdminState) :
    resync_loop now L [] st
      = .ok (L.foldl (fun acc it =>
          set_timer now (it.activatetime - now) it.param it.channel it.mode
            acc) st) := by
  induction L generalizing st with
  | nil => rfl
  | cons e rest ih => simp [resync_loop, ih]

/-- C5 (amended): resync is attempted on start and on every reload made
while the plugin is started (the constructor-time first reload skips it
because `self.started` is still false).  When the in-memory timer table is
empty at that point — the `start()` case — it reconstructs exactly one
timer per entry currently in the persisted list (no duplicates, nothing
dropped), computing each timer's remaining delay as the stored fire time
minus the current time clamped to a minimum of 1, and leaves the persisted
list unchanged.  When a pending timer exists, however (any reload while
started, in a key-consistent state with a non-empty persisted list),
`_set_timer`'s re-cancellation of the timer the first `_set_all_timers`
loop already cancelled raises twisted's `AlreadyCancelled`: resync aborts
at the first persisted entry, reconstructing no timer and merely popping
that entry's key from the timer table. -/
theorem resync_reconstructs_or_aborts (now : Int) (s : AdminState)
    (hstarted : s.started = true) :
    (s.laterTimers = [] → (latersKeys s.laters).Nodup →
      ∃ st', AdminState.reload now s = .ok st'
        ∧ st'.laterTimers = s.laters.map
            (fun it => (laterKey it, max 1 (it.activatetime - now)))
        ∧ st'.laters = s.laters)
    ∧ (∀ (e : Later) (rest : List Later), s.laters = e :: rest →
        keysConsistent s →
        AdminState.reload now s = .error
          { s with laterTimers :=
              s.laterTimers.filter (fun q => !decide (q.1 = laterKey e)) })
    := by
  constructor
  · intro h0 hnodup
    have hL : removeKeysL (latersKeys s.laters) s.laters = [] := by
      refine List.filter_eq_nil_iff.mpr ?_
      intro it hit
      simp only [Bool.not_eq_true', decide_eq_false_iff_not,
        Decidable.not_not]
      exact List.mem_map_of_mem laterKey hit
    obtain ⟨h1, h2⟩ := set_timer_fold_spec now s.laters s hnodup
    refine ⟨s.laters.foldl (fun st it =>
        set_timer now (it.activatetime - now) it.param it.channel it.mode st)
        s, ?_, ?_, ?_⟩
    · unfold AdminState.reload set_all_timers_run
      rw [hstarted]
      simp only [if_true]
      rw [h0]
      exact resync_loop_no_stale now s.laters s
    · rw [h1, h0]
      simp [removeKeysT]
    · rw [h2, hL, List.nil_append]
  · intro e rest hlaters hkc
    have hke : laterKey e ∈ timerKeys s.laterTimers := by
      refine (hkc (laterKey e)).mpr ?_
      rw [hlaters]
      exact List.mem_map_of_mem laterKey (List.mem_cons_self e rest)
    unfold AdminState.reload set_all_timers_run
    rw [hstarted]
    simp only [if_true]
    rw [hlaters]
    simp only [resync_loop, hke, if_true]
    exact congrArg Except.error (by rw [← hlaters, ← hstarted])

/-- C5 counterexample: the claim fails in two ways.  First, the first
reload runs from the constructor while `self.started` is still false, so
nothing is resynchronised: with one persisted entry and no timers, reload
returns the state unchanged, reconstructing no timer.  Second, on a
started state with one persisted entry and its pending timer (cancelled
but left in `later_timers` by `_set_all_timers`' first loop), reload
aborts with an uncaught `AlreadyCancelled` from `_set_timer`'s
`timer.cancel()` instead of reconstructing the timer: the key has been
popped and no timer exists for the entry afterwards. -/
theorem reload_resync_counterexample :
    AdminState.reload 0
        { laterTimers := [], laters := [⟨100, "x!*@*", "#a", "-q"⟩],
          persisted := [⟨100, "x!*@*", "#a", "-q"⟩], started := false }
      = .ok
          { laterTimers := [], laters := [⟨100, "x!*@*", "#a", "-q"⟩],
            persisted := [⟨100, "x!*@*", "#a", "-q"⟩], started := false }
    ∧ AdminState.reload 0
        { laterTimers := [(("x!*@*", "#a", "-q"), 30)],
          laters := [⟨100, "x!*@*", "#a", "-q"⟩],
          persisted := [⟨100, "x!*@*", "#a", "-q"⟩], started := true }
      = .error
          { laterTimers := [], laters := [⟨100, "x!*@*", "#a", "-q"⟩],
            persisted := [⟨100, "x!*@*", "#a", "-q"⟩], started := true } :=
  ⟨rfl, rfl⟩

/-- Witness for C5 (amended): reconstruction at a started state whose
timer table is empty, holding one overdue and one future entry (the
overdue delay clamps to 1); and the `AlreadyCancelled` abort at a started
state with a pending timer for its persisted entry. -/
theorem resync_reconstructs_or_aborts_witness :
    (∃ st', AdminState.reload 100
        { laterTimers := [],
          laters := [⟨90, "x!*@*", "#a", "-q"⟩, ⟨160, "y!*@*", "#b", "-b"⟩],
          persisted := [⟨90, "x!*@*", "#a", "-q"⟩,
            ⟨160, "y!*@*", "#b", "-b"⟩],
          started := true } = .ok st'
      ∧ st'.laterTimers
          = [(("x!*@*", "#a", "-q"), 1), (("y!*@*", "#b", "-b"), 60)]
      ∧ st'.laters
          = [⟨90, "x!*@*", "#a", "-q"⟩, ⟨160, "y!*@*", "#b", "-b"⟩])
    ∧ AdminState.reload 0
        { laterTimers := [(("x!*@*", "#a", "-q"), 30)],
          laters := [⟨100, "x!*@*", "#a", "-q"⟩],
          persisted := [⟨100, "x!*@*", "#a", "-q"⟩], started := true }
      = .error
          { laterTimers := [], laters := [⟨100, "x!*@*", "#a", "-q"⟩],
            persisted := [⟨100, "x!*@*", "#a", "-q"⟩], started := true } := by
  constructor
  · obtain ⟨st', hok, ht, hl⟩ :=
      (resync_reconstructs_or_aborts 100
        { laterTimers := [],
          laters := [⟨90, "x!*@*", "#a", "-q"⟩,
            ⟨160, "y!*@*", "#b", "-b"⟩],
          persisted := [⟨90, "x!*@*", "#a", "-q"⟩,
            ⟨160, "y!*@*", "#b", "-b"⟩],
          started := true } rfl).1 rfl (by decide)
    refine ⟨st', hok, ?_, hl⟩
    rw [ht]
    rfl
  · have h := (resync_reconstructs_or_aborts 0
      { laterTimers := [(("x!*@*", "#a", "-q"), 30)],
        laters := [⟨100, "x!*@*", "#a", "-q"⟩],
        persisted := [⟨100, "x!*@*", "#a", "-q"⟩], started := true }
      rfl).2 ⟨100, "x!*@*", "#a", "-q"⟩ [] rfl
      (fun k => Iff.rfl)
    exact h

/-! ## C10: the topic-updated handler drains the waiter set -/

theorem lookupD_removeA {α : Type} (l : List (String × α)) (k : String)
    (d : α) : lookupD (removeA l k) k d = d := by
  induction l with
  | nil => rfl
  | cons p rest ih =>
    obtain ⟨k', v⟩ := p
    by_cases h : k' = k <;>
      simp [removeA, lookupD, List.filter_cons, h] at ih ⊢ <;>
      simpa [removeA] using ih

theorem lookupD_setA {α : Type} (l : List (String × α)) (k : String)
    (v d : α) : lookupD (setA l k v) k d = v := by
  induction l with
  | nil => simp [setA, lookupD]
  | cons p rest ih =>
    obtain ⟨k', v'⟩ := p
    by_cases h : k' = k <;> simp [setA, lookupD, h, ih]

/-- C10: every received topic-updated event for a channel drains that
channel's waiter set: after `on_event_irc_on_topic_updated` runs, no pending
waiters remain for the channel, each former waiter was resolved with the
event's new topic, and when the new topic equals the current top of the
history the history is left unchanged. -/
theorem topic_update_drains_waiters (channel newtopic : String)
    (ts : TopicState) :
    lookupD (on_event_irc_on_topic_updated channel newtopic ts).1.topicWaiters
        channel [] = []
    ∧ (on_event_irc_on_topic_updated channel newtopic ts).2
        = (lookupD ts.topicWaiters channel []).map (fun i => (i, newtopic))
    ∧ ((lookupD ts.topicStack channel []).getLast? = some newtopic →
        (on_event_irc_on_topic_updated channel newtopic ts).1.topicStack
          = ts.topicStack) := by
  refine ⟨?_, rfl, ?_⟩
  · simp only [on_event_irc_on_topic_updated]
    exact lookupD_removeA ts.topicWaiters channel []
  · intro htop
    simp [on_event_irc_on_topic_updated, htop]

/-- Witness for C10: two waiters on `#a`, whose history top is already
`"t"`; the event resolves both with `"t"`, empties the waiter set and
leaves the history untouched. -/
theorem topic_update_drains_waiters_witness :
    lookupD (on_event_irc_on_topic_updated "#a" "t"
        { topicStack := [("#a", ["s", "t"])],
          topicWaiters := [("#a", [0, 1])], nextId := 2,
          timeoutPending := ["#a"] }).1.topicWaiters "#a" [] = []
    ∧ (on_event_irc_on_topic_updated "#a" "t"
        { topicStack := [("#a", ["s", "t"])],
          topicWaiters := [("#a", [0, 1])], nextId := 2,
          timeoutPending := ["#a"] }).2 = [(0, "t"), (1, "t")]
    ∧ (on_event_irc_on_topic_updated "#a" "t"
        { topicStack := [("#a", ["s", "t"])],
          topicWaiters := [("#a", [0, 1])], nextId := 2,
          timeoutPending := ["#a"] }).1.topicStack
        = [("#a", ["s", "t"])] := by
  have h := topic_update_drains_waiters "#a" "t"
    { topicStack := [("#a", ["s", "t"])],
      topicWaiters := [("#a", [0, 1])], nextId := 2,
      timeoutPending := ["#a"] }
  exact ⟨h.1, by rw [h.2.1]; rfl, h.2.2 (by decide)⟩

/-! ## C4: outbound fetch-topic requests are not deduplicated -/

/-- C4 counterexample: starting from an empty topic state, a first
`_get_current_topic("#a")` sends an `irc.do_topic` fetch event and registers
a waiter; a second call made while that waiter is still pending sends a
**second** fetch event — so two fetch requests are in flight for `#a`
while callers wait concurrently, contradicting "at most one outbound
fetch-topic request is in flight". -/
theorem topic_fetch_not_deduplicated :
    (get_current_topic "#a" initialTopicState).2.2
        = [TopicReq.fetchTopic "#a"]
    ∧ (lookupD (get_current_topic "#a" initialTopicState).1.topicWaiters
        "#a" []).length = 1
    ∧ (get_current_topic "#a"
          (get_current_topic "#a" initialTopicState).1).2.2
        = [TopicReq.fetchTopic "#a"]
    ∧ (lookupD (get_current_topic "#a"
          (get_current_topic "#a" initialTopicState).1).1.topicWaiters
        "#a" []).length = 2 := by
  decide

/-- C4 (amended): while the topic of a channel is unknown, **every** call to
`_get_current_topic` issues its own outbound fetch-topic request (n
concurrently waiting callers cause n requests) and registers one more
waiter; at most the first call arms the shared timeout; and when the answer
arrives, all registered waiters resolve to the same value. -/
theorem topic_fetch_per_call_shared_resolution (channel : String)
    (ts : TopicState)
    (hempty : lookupD ts.topicStack channel [] = []) :
    (get_current_topic channel ts).2.2 = [TopicReq.fetchTopic channel]
    ∧ lookupD (get_current_topic channel ts).1.topicWaiters channel []
        = lookupD ts.topicWaiters channel [] ++ [ts.nextId]
    ∧ (get_current_topic channel ts).2.1 = .waiter ts.nextId
    ∧ ((lookupD ts.topicWaiters channel []).isEmpty = false →
        (get_current_topic channel ts).1.timeoutPending = ts.timeoutPending)
    ∧ (∀ (ts' : TopicState) (t : String),
        (on_event_irc_on_topic_updated channel t ts').2
          = (lookupD ts'.topicWaiters channel []).map (fun i => (i, t))) := by
  refine ⟨?_, ?_, ?_, ?_, fun ts' t => rfl⟩
  · simp [get_current_topic, hempty]
  · simp only [get_current_topic, hempty, List.getLast?_nil]
    exact lookupD_setA ts.topicWaiters channel _ []
  · simp [get_current_topic, hempty]
  · intro hne
    simp [get_current_topic, hempty, hne]

/-- Witness for C4 (amended): a second concurrent call on `#a` against a
state that already holds one waiter. -/
theorem topic_fetch_per_call_shared_resolution_witness :
    (get_current_topic "#a"
        { topicStack := [], topicWaiters := [("#a", [0])], nextId := 1,
          timeoutPending := ["#a"] }).2.2 = [TopicReq.fetchTopic "#a"]
    ∧ lookupD (get_current_topic "#a"
        { topicStack := [], topicWaiters := [("#a", [0])], nextId := 1,
          timeoutPending := ["#a"] }).1.topicWaiters "#a" [] = [0, 1] := by
  have h := topic_fetch_per_call_shared_resolution "#a"
    { topicStack := [], topicWaiters := [("#a", [0])], nextId := 1,
      timeoutPending := ["#a"] } (by decide)
  exact ⟨h.1, by rw [h.2.1]; rfl⟩

/-! ## C7: out-of-range handling of the topic-edit commands -/

/-- C7 counterexample: `topic insert 5 X` on the 3-part topic
`"a | b | c"` does **not** reply with an out-of-range message — Python's
`list.insert` clamps the position, so the callback issues a set-topic
request appending `X` at the end. -/
theorem insert_out_of_range_still_edits :
    topicinsert "a | b | c" 5 "X" = .setTopic "a | b | c | X" := by
  decide

/-- C7 (amended): for every current topic and every invalid 0-indexed
position, `topicreplace` and `topicremove` reply with the out-of-range
message naming how many topic parts exist and issue no set-topic request;
`topicinsert`, however, never treats a position as invalid: it always
issues a set-topic request, applying the edit with the position clamped
into range. -/
theorem replace_remove_reject_invalid_insert_clamps
    (currenttopic text : String) (pos : Int)
    (hinv : pyValidIndex (topicParts currenttopic).length pos = false) :
    topicreplace currenttopic pos text
        = .reply (outOfRangeReply (topicParts currenttopic).length)
    ∧ topicremove currenttopic pos
        = .reply (outOfRangeReply (topicParts currenttopic).length)
    ∧ (∀ (tp tx : String) (p2 : Int), ∃ newtopic,
        topicinsert tp p2 tx = .setTopic newtopic) := by
  refine ⟨?_, ?_, fun tp tx p2 => ⟨_, rfl⟩⟩
  · simp [topicreplace, hinv]
  · simp [topicremove, hinv]

/-- Witness for C7 (amended) at the spec's own example: `remove 5` (and
`replace 5`) on the 3-part topic `"a | b | c"` reply naming 3 parts. -/
theorem replace_remove_reject_invalid_witness :
    topicreplace "a | b | c" 5 "X"
        = .reply "There are only 3 topic parts. Remember indexes start at 0"
    ∧ topicremove "a | b | c" 5
        = .reply "There are only 3 topic parts. Remember indexes start at 0" := by
  have h := replace_remove_reject_invalid_insert_clamps "a | b | c" "X" 5
    (by decide)
  refine ⟨?_, ?_⟩
  · rw [h.1]; rfl
  · rw [h.2.1]; rfl

/-! ## C8: hostmask resolution -/

/-- C8: `_nick_to_hostmask` returns its input unchanged when it contains
both `!` and `@` or starts with the extended-ban marker `$`; otherwise the
whois result is turned into a wildcard mask: a freenode web-gateway host
keeps only the embedded real IP fragment (the last `/`-segment with the
leading `"ip."` removed), any other `gateway/` host is masked as the
looked-up username against `gateway/*`, and in the general case both the
nick and username fields are wildcarded and only the host is kept — in
particular a lookup returning `(nick="bob", user="bobby",
host="unaffiliated/bob")` yields `"*!*@unaffiliated/bob"`. -/
theorem resolve_target_masks (nick : String) (w : WhoisUser) :
    (looksLikeMask nick = true →
        nick_to_hostmask nick (.found w) = .ok nick)
    ∧ (looksLikeMask nick = false →
        pyStartsWith w.host "gateway/web/freenode/ip." = true →
        nick_to_hostmask nick (.found w)
          = .ok ("*!*@" ++ pyDrop 3 ((pySplit '/' w.host).getLastD "")))
    ∧ (looksLikeMask nick = false →
        pyStartsWith w.host "gateway/web/freenode/ip." = false →
        pyStartsWith w.host "gateway/" = true →
        nick_to_hostmask nick (.found w)
          = .ok ("*!" ++ w.username ++ "@gateway/*"))
    ∧ (looksLikeMask nick = false →
        pyStartsWith w.host "gateway/web/freenode/ip." = false →
        pyStartsWith w.host "gateway/" = false →
        nick_to_hostmask nick (.found w) = .ok ("*!*@" ++ w.host))
    ∧ nick_to_hostmask "joe"
        (.found ⟨"joe", "jweb", "gateway/web/freenode/ip.1.2.3.4"⟩)
        = .ok "*!*@1.2.3.4"
    ∧ nick_to_hostmask "bob" (.found ⟨"bob", "bobby", "unaffiliated/bob"⟩)
        = .ok "*!*@unaffiliated/bob" := by
  refine ⟨?_, ?_, ?_, ?_, rfl, rfl⟩
  · intro hm
    simp [nick_to_hostmask, hm]
  · intro hm hfw
    simp [nick_to_hostmask, hm, hfw]
  · intro hm hfw hgw
    simp only [nick_to_hostmask, hm, Bool.false_eq_true, if_false, hfw, hgw,
      if_true]
    rw [String.append_assoc]
    rfl
  · intro hm hfw hgw
    simp [nick_to_hostmask, hm, hfw, hgw]

/-- Witness for C8 at concrete inputs for each guarded branch: an extban
passthrough, a full-mask passthrough, a non-freenode gateway host, and a
plain host. -/
theorem resolve_target_masks_witness :
    nick_to_hostmask "$a:##fix" (.found ⟨"x", "y", "z"⟩) = .ok "$a:##fix"
    ∧ nick_to_hostmask "n!u@h" (.found ⟨"x", "y", "z"⟩) = .ok "n!u@h"
    ∧ nick_to_hostmask "carol" (.found ⟨"carol", "cweb", "gateway/tor-sasl/carol"⟩)
        = .ok ("*!" ++ "cweb" ++ "@gateway/*")
    ∧ nick_to_hostmask "bob" (.found ⟨"bob", "bobby", "unaffiliated/bob"⟩)
        = .ok ("*!*@" ++ "unaffiliated/bob") := by
  refine ⟨?_, ?_, ?_, ?_⟩
  · exact (resolve_target_masks "$a:##fix" ⟨"x", "y", "z"⟩).1 (by decide)
  · exact (resolve_target_masks "n!u@h" ⟨"x", "y", "z"⟩).1 (by decide)
  · exact (resolve_target_masks "carol"
      ⟨"carol", "cweb", "gateway/tor-sasl/carol"⟩).2.2.1
      (by decide) (by decide) (by decide)
  · exact (resolve_target_masks "bob"
      ⟨"bob", "bobby", "unaffiliated/bob"⟩).2.2.2.1
      (by decide) (by decide) (by decide)

/-! ## C9: duration-parse failure in `ban` vs `quiet` -/

/-- C9 counterexample: in `quiet`, a duration that fails to parse does
**not** degrade gracefully — the handler replies with the `ValueError`
message and returns before any hostmask resolution or `ircop.quiet`
request: the action is not performed. -/
theorem quiet_aborts_on_parse_failure :
    quietCmd 0 "#a" "bob" (some "banana") .noParse none
        (.found ⟨"bob", "bobby", "unaffiliated/bob"⟩) none
      = [.reply "I don't understand when you want me to do that"] := rfl

/-- C9 (amended): only `ban` degrades gracefully when the duration argument
fails to parse as a time string: the unparsed text replaces the default
`"Banned by …"` reason of the kick accompanying the ban and the ban/kick
are still issued; `quiet`, by contrast, replies with the parse error and
aborts without performing the action. -/
theorem ban_degrades_gracefully_quiet_aborts
    (now : Int) (channel target user ts hostmask : String) (w : WhoisUser)
    (defaulttime : Option Int) (whois : WhoisResult) (opFail : Option String)
    (h1 : pyContains target '@' = false) (h2 : pyContains target '!' = false)
    (h3 : pyContains target '$' = false)
    (hres : nick_to_hostmask target (.found w) = Except.ok hostmask) :
    banCmd now channel target user (some ts) .noParse none (.found w)
        none none
      = [.request "ircop.ban" channel hostmask, .kick channel target ts]
    ∧ quietCmd now channel target (some ts) .noParse defaulttime whois opFail
      = [.reply parseErrorMsg] := by
  constructor
  · simp [banCmd, banIssue, do_moderequest, applyDefaulttime, parse_time,
      hres, h1, h2, h3]
  · rfl

/-- Witness for C9 (amended): banning `bob for banana` issues the ban on
the resolved mask and a kick whose reason is the unparsed text `banana`,
while quieting `bob for banana` only replies with the parse error. -/
theorem ban_degrades_gracefully_quiet_aborts_witness :
    banCmd 0 "#a" "bob" "op!x@y" (some "banana") .noParse none
        (.found ⟨"bob", "bobby", "unaffiliated/bob"⟩) none none
      = [.request "ircop.ban" "#a" "*!*@unaffiliated/bob",
         .kick "#a" "bob" "banana"]
    ∧ quietCmd 0 "#a" "bob" (some "banana") .noParse none
        (.found ⟨"bob", "bobby", "unaffiliated/bob"⟩) none
      = [.reply parseErrorMsg] :=
  ban_degrades_gracefully_quiet_aborts 0 "#a" "bob" "op!x@y" "banana"
    "*!*@unaffiliated/bob" ⟨"bob", "bobby", "unaffiliated/bob"⟩ none
    (.found ⟨"bob", "bobby", "unaffiliated/bob"⟩) none
    (by decide) (by decide) (by decide) rfl
